import Mathlib

/-
Verification development for the agent-trust-gateway service.

Shallow embedding conventions:
* JavaScript strings are modelled as `List Char` (abbreviated `Str`); the
  source manipulates strings character-wise (regular expressions, trims,
  splits), and those operations are translated here into explicit structural
  functions with JS semantics.
* JSON values are modelled by the inductive `Json`; the runtime `JSON.parse`
  is an opaque capability and appears as a parameter `Str → Option Json`
  (`none` models a parse exception).
* `fetch` is an opaque capability `Str → Option FetchResp`; `none` models a
  rejected promise (transport failure), `some r` a settled response with
  `r.status` and `r.body` (`none` body models `response.json()` rejecting).
* Blockchain reads (token URI, owner, metadata, feedback) are opaque
  capabilities passed as explicit inputs.
* JS numbers carried in feedback scores are modelled as `ℚ`; derived score
  arithmetic (which involves `Math.sqrt`) lives in `ℝ`. `Math.round x` is
  `round x = ⌊x + 1/2⌋`, the same convention JS uses.
-/

namespace ATG

abbrev Str := List Char

/-- JSON value model. Object field lists may carry duplicate keys; lookup is
last-wins, matching `JSON.parse` semantics. -/
inductive Json where
  | null
  | bool (b : Bool)
  | num (q : ℚ)
  | str (s : Str)
  | arr (elems : List Json)
  | obj (fields : List (Str × Json))

/-- Last-wins field lookup, the observable behaviour of a parsed JS object. -/
def jlookup (key : Str) : List (Str × Json) → Option Json
  | [] => none
  | kv :: rest =>
    match jlookup key rest with
    | some v => some v
    | none => if kv.1 = key then some kv.2 else none

/-- JS truthiness of a JSON value (`if (x)`). -/
def jsTruthy : Json → Bool
  | .null => false
  | .bool b => b
  | .num q => decide (q ≠ 0)
  | .str s => decide (s ≠ [])
  | .arr _ => true
  | .obj _ => true

/-! ## Content-type classification (src/app.ts `parseA2AJsonBody`)

The source tests
`/(^|;)\s*application\/(?:[\w.+-]+\+)?json\s*(;|$)/i` and
`/(^|;)\s*text\/plain\s*(;|$)/i` against the content type. Because neither
pattern core can contain a `;`, `test` succeeds exactly when some
`;`-separated segment of the lowercased header, after trimming whitespace,
matches the pattern core. -/

def jsWhitespace (c : Char) : Bool := c.isWhitespace

def trimChars (cs : Str) : Str :=
  ((cs.dropWhile jsWhitespace).reverse.dropWhile jsWhitespace).reverse

/-- Split a character list on `;`. -/
def splitSemi : Str → List Str
  | [] => [[]]
  | c :: rest =>
    let r := splitSemi rest
    if c = ';' then [] :: r
    else
      match r with
      | [] => [[c]]
      | h :: t => (c :: h) :: t

/-- ASCII lowering, the effect of the regex `i` flag on the ASCII patterns. -/
def lowerChar (c : Char) : Char :=
  if 'A' ≤ c ∧ c ≤ 'Z' then Char.ofNat (c.toNat + 32) else c

def lowerStr (cs : Str) : Str := cs.map lowerChar

def startsWithChars : Str → Str → Bool
  | [], _ => true
  | _ :: _, [] => false
  | p :: ps, c :: cs => p == c && startsWithChars ps cs

def endsWithChars (p s : Str) : Bool := startsWithChars p.reverse s.reverse

/-- Character class `[\w.+-]` of the `+json` subtype pattern. -/
def wordClassChar (c : Char) : Bool :=
  c.isAlphanum || c == '_' || c == '.' || c == '+' || c == '-'

/-- Does a trimmed, lowercased segment match `application\/(?:[\w.+-]+\+)?json`? -/
def matchesJsonMedia (seg : Str) : Bool :=
  let t := trimChars seg
  t == "application/json".data ||
  (startsWithChars "application/".data t && endsWithChars "+json".data t &&
    (let mid := ((t.drop 12).reverse.drop 5).reverse
     !mid.isEmpty && mid.all wordClassChar))

/-- Acceptance predicate of `parseA2AJsonBody`: an absent content type,
`application/json`, any `+json` subtype, or `text/plain`. -/
def acceptsAsJson (contentType : Str) : Bool :=
  contentType.isEmpty ||
  (splitSemi (lowerStr contentType)).any matchesJsonMedia ||
  (splitSemi (lowerStr contentType)).any
    (fun seg => trimChars seg == "text/plain".data)

/-! ## The A2A payment middleware (src/app.ts) -/

def PAID_A2A_METHODS : List Str := ["message/send".data, "message/stream".data]

/-- Extract `body.method` when the parsed body is a (truthy, non-array) object
whose `method` field is a string; `none` in every other case, mirroring the
guard chain `!body || typeof body !== "object" || Array.isArray(body) ||
!("method" in body) || typeof body.method !== "string"`. -/
def jsonStringMethod (body : Json) : Option Str :=
  match body with
  | .obj fields =>
    match jlookup "method".data fields with
    | some (.str m) => some m
    | _ => none
  | _ => none

inductive A2AMidOutcome where
  | respond (code : ℤ)
  | payment
  | next

/-- The `/a2a` payment middleware: parse the body (empty body is a null-intent
request), reject unacceptable content types with -32600, unparseable JSON with
-32700; a string `method` in the paid set with the bypass flag unset delegates
to the payment middleware; everything else falls through to the handler. -/
def a2aMiddleware (bypassPayments : Bool) (contentType rawBody : Str)
    (jsonParse : Str → Option Json) : A2AMidOutcome :=
  if (trimChars rawBody).isEmpty then .next
  else if acceptsAsJson contentType = false then .respond (-32600)
  else
    match jsonParse rawBody with
    | none => .respond (-32700)
    | some body =>
      match jsonStringMethod body with
      | none => .next
      | some m =>
        if bypassPayments = false ∧ m ∈ PAID_A2A_METHODS then .payment else .next

/-- Modelled from the spec: the payment-verification middleware produced by
`createPaymentMiddleware` (external package `@x402/hono`, outside this
repository; the spec fixes only its interface boundary). Per the payment
header contract, a gated request without a valid payment proof receives
HTTP 402; with a valid proof the downstream handler's status is returned. -/
def x402Status (hasValidPaymentProof : Bool) (innerStatus : ℕ) : ℕ :=
  if hasValidPaymentProof then innerStatus else 402

structure A2AResponseSummary where
  httpStatus : ℕ
  jsonRpcErrorCode : Option ℤ
  paymentChecked : Bool

/-- End-to-end outcome of a POST /a2a request through the payment middleware:
JSON-RPC protocol errors are returned in a 200 envelope; a `payment` outcome
invokes the payment-verification capability. -/
def a2aRequest (bypassPayments hasValidPaymentProof : Bool)
    (contentType rawBody : Str) (jsonParse : Str → Option Json)
    (innerStatus : ℕ) : A2AResponseSummary :=
  match a2aMiddleware bypassPayments contentType rawBody jsonParse with
  | .respond code => ⟨200, some code, false⟩
  | .payment => ⟨x402Status hasValidPaymentProof innerStatus, none, true⟩
  | .next => ⟨innerStatus, none, false⟩

/-! ## Agent id validation (routes/api.ts `agentIdSchema`, `parseAgentIdParam`) -/

/-- The `^\d+$` pattern. -/
def matchesAgentIdPattern (s : Str) : Bool := !s.isEmpty && s.all Char.isDigit

def strToNat (s : Str) : ℕ := s.foldl (fun acc c => 10 * acc + (c.toNat - 48)) 0

/-- REST path-parameter validation: regex test then `BigInt` conversion
(which cannot fail on an all-digit string). -/
def parseAgentIdParam (s : Str) : Option ℕ :=
  if matchesAgentIdPattern s then some (strToNat s) else none

/-- The `agentIdSchema` zod union applied to a JSON input value: a string must
match `^\d+$`; a number must be a non-negative integer. -/
def agentIdSchemaJson : Json → Option ℕ
  | .str s => parseAgentIdParam s
  | .num q => if q.den = 1 ∧ 0 ≤ q.num then some q.num.toNat else none
  | _ => none

structure RouteReply where
  status : ℕ
  fieldDetails : Bool
  registryInvoked : Bool

/-- GET /agent/:id/profile up to the id gate: an invalid id yields 400 with
flattened field details before any registry client is created; a valid id
proceeds to the registry-backed handler (abstracted as `innerStatus`). -/
def profileRoute (idParam : Str) (innerStatus : ℕ) : RouteReply :=
  match parseAgentIdParam idParam with
  | none => ⟨400, true, false⟩
  | some _ => ⟨innerStatus, false, true⟩

/-- The shared id gate of POST /agent/{profile,score,validate}/invoke: the
`input` object's `agentId` field is validated by `agentIdSchema`; failure
yields 400 with flattened details and no registry call. -/
def invokeRoute (input : Json) (innerStatus : ℕ) : RouteReply :=
  match input with
  | .obj fields =>
    match jlookup "agentId".data fields with
    | some v =>
      match agentIdSchemaJson v with
      | some _ => ⟨innerStatus, false, true⟩
      | none => ⟨400, true, false⟩
    | none => ⟨400, true, false⟩
  | _ => ⟨400, true, false⟩

/-! ## Registration-file resolution (routes/api.ts `fetchRegistrationFile`) -/

structure FetchResp where
  status : ℕ
  body : Option Json

/-- `response.ok`: status in the 2xx range. -/
def respOk (r : FetchResp) : Bool := decide (200 ≤ r.status ∧ r.status ≤ 299)

inductive FetchFailure where
  | httpStatus (status : ℕ)
  | bodyParseThrow

def IPFS_SCHEME : Str := "ipfs://".data
def GATEWAY_IPFS_MAIN : Str := "https://ipfs.io/ipfs/".data
def GATEWAY_CLOUDFLARE : Str := "https://cloudflare-ipfs.com/ipfs/".data
def GATEWAY_DWEB : Str := "https://dweb.link/ipfs/".data

/-- Candidate URL list: an `ipfs://` URI expands to three public gateways
carrying the same CID (`replace("ipfs://", "")` on a string with that prefix
is `drop 7`); any other URI is the single literal candidate. -/
def fetchUrlsFor (tokenUri : Str) : List Str :=
  if startsWithChars IPFS_SCHEME tokenUri then
    [GATEWAY_IPFS_MAIN ++ tokenUri.drop 7,
     GATEWAY_CLOUDFLARE ++ tokenUri.drop 7,
     GATEWAY_DWEB ++ tokenUri.drop 7]
  else [tokenUri]

/-- The candidate loop. Returns the outcome and the list of URLs attempted,
in order. A transport failure records status 502 and continues; a 2xx
response short-circuits (a body-parse rejection there propagates as a thrown
error); any other status — 404 included — is recorded and the loop continues
to the next candidate. When the list is exhausted the last recorded status
(initially 500) is the failure. -/
def tryFetchUrls (fetchUrl : Str → Option FetchResp) :
    List Str → ℕ → Except FetchFailure Json × List Str
  | [], lastStatus => (.error (.httpStatus lastStatus), [])
  | url :: rest, _lastStatus =>
    match fetchUrl url with
    | none =>
      let r := tryFetchUrls fetchUrl rest 502
      (r.1, url :: r.2)
    | some resp =>
      if respOk resp then
        match resp.body with
        | some doc => (.ok doc, [url])
        | none => (.error .bodyParseThrow, [url])
      else
        let r := tryFetchUrls fetchUrl rest resp.status
        (r.1, url :: r.2)

def DATA_JSON_B64 : Str := "data:application/json;base64,".data

/-- The capture of `/^data:application\/json;base64,(.+)$/`: the payload after
the fixed prefix, which must be non-empty and contain no line terminator
(`.` does not match line terminators). -/
def dataUriPayload (uri : Str) : Option Str :=
  if startsWithChars DATA_JSON_B64 uri then
    let payload := uri.drop DATA_JSON_B64.length
    if !payload.isEmpty &&
        payload.all (fun c =>
          !(c == '\n' || c == '\r' || c == '\u2028' || c == '\u2029')) then
      some payload
    else none
  else none

/-- `parseDataUri`: match the data-URI pattern, then base64-decode and
`JSON.parse` the payload. The decode-and-parse step is the opaque runtime
capability `decodeParse`; `none` models its try/catch returning `null`. -/
def parseDataUri (decodeParse : Str → Option Json) (uri : Str) : Option Json :=
  (dataUriPayload uri).bind decodeParse

/-- `fetchRegistrationFile` for a given token URI: a truthy data-URI result is
returned directly with no network attempt; otherwise (including decode/parse
failure on a data URI) the candidate loop runs over `fetchUrlsFor`. -/
def fetchRegistrationFile (decodeParse : Str → Option Json)
    (fetchUrl : Str → Option FetchResp) (tokenUri : Str) :
    Except FetchFailure Json × List Str :=
  match parseDataUri decodeParse tokenUri with
  | some doc =>
    if jsTruthy doc then (.ok doc, []) else tryFetchUrls fetchUrl (fetchUrlsFor tokenUri) 500
  | none => tryFetchUrls fetchUrl (fetchUrlsFor tokenUri) 500

/-- `endpointError`: a `RegistrationFileError` with status 404 maps to a 404
response; every other error (other recorded statuses, body-parse throws) maps
to a 500 response. -/
def endpointErrorStatus : FetchFailure → ℕ
  | .httpStatus s => if s = 404 then 404 else 500
  | .bodyParseThrow => 500

/-- A candidate attempt that does not short-circuit the loop: transport
failure or a non-2xx response. -/
def candidateFails (fetchUrl : Str → Option FetchResp) (url : Str) : Prop :=
  fetchUrl url = none ∨ ∃ r, fetchUrl url = some r ∧ respOk r = false

/-- The status the loop records for a failing candidate. -/
def recordedStatus (fetchUrl : Str → Option FetchResp) (url : Str) : ℕ :=
  match fetchUrl url with
  | none => 502
  | some r => r.status

/-! ## Registration-file data model (routes/api.ts `RegistrationFile`) -/

structure AgentEndpoint where
  name : Str
  endpoint : Str
  version : Option Str

structure AgentRegistration where
  agentId : Option ℤ
  agentRegistry : Str

structure RegistrationFile where
  name : Str
  description : Str
  image : Option Str
  endpoints : Option (List AgentEndpoint)
  supportedTrust : Option (List Str)
  active : Option Bool
  registrations : Option (List AgentRegistration)

/-! ## Feedback reading (routes/api.ts `readFeedbackSafe`) -/

structure FeedbackResult where
  scores : List ℚ
  clientAddresses : List Str
  warning : Option Str

/-- Outcome of the opaque `reputation.readAllFeedback` capability: either the
arrays it resolved with, or the message of the error it rejected with. -/
inductive FeedbackRead where
  | ok (scores : List ℚ) (clientAddresses : List Str)
  | threw (message : Str)

/-- `readFeedbackSafe`: a successful read passes the arrays through; a
rejected read is absorbed into empty arrays plus a warning message. -/
def readFeedbackSafe : FeedbackRead → FeedbackResult
  | .ok s c => ⟨s, c, none⟩
  | .threw m => ⟨[], [], some m⟩

/-! ## Scoring engine (routes/api.ts POST /agent/score/invoke) -/

noncomputable def listMeanR (scores : List ℚ) : ℝ :=
  ((scores.map fun s => (s : ℝ)).sum) / scores.length

noncomputable def sqDevSum (scores : List ℚ) : ℝ :=
  (scores.map fun s => ((s : ℝ) - listMeanR scores) ^ 2).sum

/-- `computeVariance` — despite its name the source returns the square root
of the mean squared deviation, i.e. the population standard deviation, with
an explicit 0 for the empty list. -/
noncomputable def computeVariance (scores : List ℚ) : ℝ :=
  if scores.length = 0 then 0
  else Real.sqrt (sqDevSum scores / scores.length)

/-- Population standard deviation as the spec words it (stated for the
samples of a non-empty feedback collection). -/
noncomputable def populationStddev (scores : List ℚ) : ℝ :=
  Real.sqrt (sqDevSum scores / scores.length)

/-- `avgScore`: mean of the feedback scores, 0 when there are none. -/
noncomputable def avgScore (scores : List ℚ) : ℝ :=
  if 0 < scores.length then listMeanR scores else 0

def hasEndpointsFlag (rf : RegistrationFile) : Bool :=
  decide (0 < (rf.endpoints.getD []).length)

def hasTrustMethodsFlag (rf : RegistrationFile) : Bool :=
  decide (0 < (rf.supportedTrust.getD []).length)

/-- `identityMaturity = (hasEndpoints?30:0) + (hasTrustMethods?20:0) +
(description.length>50?10:0)`. -/
def identityMaturity (rf : RegistrationFile) : ℕ :=
  (if hasEndpointsFlag rf then 30 else 0) +
  (if hasTrustMethodsFlag rf then 20 else 0) +
  (if 50 < rf.description.length then 10 else 0)

noncomputable def volumeScore (scores : List ℚ) : ℝ :=
  min 30 ((scores.length : ℝ) * 3)

noncomputable def consistencyScore (scores : List ℚ) : ℝ :=
  if 0 < scores.length then min 20 ((100 - computeVariance scores) / 5) else 0

noncomputable def reputationConfidence (scores : List ℚ) : ℝ :=
  volumeScore scores + consistencyScore scores

/-- `effectiveBaseScore`: the feedback mean, or the neutral 50 with no
feedback. -/
noncomputable def effectiveBaseScore (scores : List ℚ) : ℝ :=
  if 0 < scores.length then avgScore scores else 50

noncomputable def rawTrustScore (rf : RegistrationFile) (scores : List ℚ) : ℝ :=
  effectiveBaseScore scores + (identityMaturity rf : ℝ) * 0.3 +
    reputationConfidence scores * 0.2

/-- `trustScore = Math.min(100, Math.max(0, Math.round(raw)))`. -/
noncomputable def trustScore (rf : RegistrationFile) (scores : List ℚ) : ℤ :=
  min 100 (max 0 (round (rawTrustScore rf scores)))

/-! Spec-side scoring definitions, written from the spec's formulas for
comparison with the source-derived ones above. -/

def specIdentityMaturity (rf : RegistrationFile) : ℕ :=
  (if hasEndpointsFlag rf then 30 else 0) +
  (if hasTrustMethodsFlag rf then 20 else 0) +
  (if 50 < rf.description.length then 10 else 0)

noncomputable def specVolumeScore (scores : List ℚ) : ℝ :=
  min 30 ((scores.length : ℝ) * 3)

noncomputable def specConsistencyScore (scores : List ℚ) : ℝ :=
  if 0 < scores.length then min 20 ((100 - populationStddev scores) / 5) else 0

noncomputable def specReputationConfidence (scores : List ℚ) : ℝ :=
  specVolumeScore scores + specConsistencyScore scores

noncomputable def specEffectiveBaseScore (scores : List ℚ) : ℝ :=
  if 0 < scores.length then listMeanR scores else 50

/-- The spec's final formula: `round(clamp(effectiveBaseScore +
identityMaturity*0.3 + reputationConfidence*0.2, 0, 100))`. -/
noncomputable def specTrustScore (rf : RegistrationFile) (scores : List ℚ) : ℤ :=
  round (min (100 : ℝ) (max 0 (specEffectiveBaseScore scores +
    (specIdentityMaturity rf : ℝ) * 0.3 + specReputationConfidence scores * 0.2)))

/-! ## Verdict (routes/api.ts, the ternary chain on `trustScore`) -/

inductive TrustVerdict where
  | untrusted
  | lowTrust
  | neutral
  | trusted
  | highlyTrusted
deriving DecidableEq

def verdictOf (s : ℤ) : TrustVerdict :=
  if 80 ≤ s then .highlyTrusted
  else if 60 ≤ s then .trusted
  else if 40 ≤ s then .neutral
  else if 20 ≤ s then .lowTrust
  else .untrusted

/-! ## The score operation's response body -/

structure ScoreOutput where
  httpStatus : ℕ
  trustScore : ℤ
  verdict : TrustVerdict
  feedbackScore : ℤ
  identityMaturity : ℕ
  reputationConfidence : ℝ
  feedbackCount : ℕ
  averageScore : ℝ
  uniqueClients : ℕ
  warning : Option Str

/-- The success path of POST /agent/score/invoke after the registration file
and the (safe) feedback read are available: every reported field as the
handler computes it. `averageScore` is `Math.round(avg*10)/10`, and
`uniqueClients` is `new Set(clientAddresses).size`. -/
noncomputable def scoreInvoke (rf : RegistrationFile) (fb : FeedbackRead) :
    ScoreOutput :=
  let r := readFeedbackSafe fb
  ⟨200,
   trustScore rf r.scores,
   verdictOf (trustScore rf r.scores),
   round (effectiveBaseScore r.scores),
   identityMaturity rf,
   reputationConfidence r.scores,
   r.scores.length,
   ((round (avgScore r.scores * 10) : ℤ) : ℝ) / 10,
   r.clientAddresses.dedup.length,
   r.warning⟩

/-! ## Validation pipeline (routes/api.ts POST /agent/validate/invoke) -/

inductive CheckKind where
  | endpoints
  | wallet
  | attestations
deriving DecidableEq

/-- Outcome of one `fetch(ep.endpoint, {method:"HEAD", signal})` probe:
a settled response, a rejection absorbed by `.catch(() => null)` (transport
failure or timeout abort), or a synchronous throw in the try block. -/
inductive ProbeOutcome where
  | response (status : ℕ)
  | noResponse
  | threw (message : Str)

/-- The per-endpoint `status` strings "reachable" / "unreachable" / "error". -/
inductive EpProbeStatus where
  | reachable
  | unreachable
  | error
deriving DecidableEq

/-- Structured form of the `error` detail strings attached to an endpoint
status entry. -/
inductive EpErrorDetail where
  | httpStatus (status : ℕ)
  | connectionFailed
  | message (msg : Str)
deriving DecidableEq

structure EndpointStatusEntry where
  name : Str
  endpoint : Str
  status : EpProbeStatus
  errorDetail : Option EpErrorDetail
deriving DecidableEq

/-- Structured form of the issue strings the pipeline appends. -/
inductive Issue where
  | endpointUnreachable (name : Str)
  | endpointProbeFailed (name : Str)
  | invalidWalletAddressFormat
deriving DecidableEq

structure WalletStatus where
  address : Str
  valid : Bool
  isOwner : Bool
deriving DecidableEq

/-- Structured form of the `details` strings of an attestation entry. -/
inductive AttDetail where
  | summary (count : ℕ) (avgRounded : ℤ)
  | unavailableWarning (warning : Str)
  | teeNotImplemented
  | cryptoEconomicNotImplemented
deriving DecidableEq

structure AttestationEntry where
  type : Str
  status : Str
  details : Option AttDetail
deriving DecidableEq

inductive OverallVerdict where
  | pending
  | validated
  | validatedWithWarnings
  | mixed
  | failed
deriving DecidableEq

/-- The report's verdict strings; `mixed` models the source's "partial". -/
def overallVerdictLabel : OverallVerdict → Str
  | .pending => "pending".data
  | .validated => "validated".data
  | .validatedWithWarnings => "validated-with-warnings".data
  | .mixed => "partial".data
  | .failed => "failed".data

structure ValidationReport where
  endpointStatus : List EndpointStatusEntry
  walletStatus : WalletStatus
  attestations : List AttestationEntry
  overallVerdict : OverallVerdict
  issues : List Issue
deriving DecidableEq

def initialWalletStatus : WalletStatus := ⟨[], false, false⟩

/-- The report as initialised before any check runs. -/
def initialReport : ValidationReport :=
  ⟨[], initialWalletStatus, [], .pending, []⟩

/-- Classification of one endpoint probe plus the issue it may append. -/
def probeEndpointEntry (ep : AgentEndpoint) :
    ProbeOutcome → EndpointStatusEntry × List Issue
  | .response s =>
    if 200 ≤ s ∧ s ≤ 299 then (⟨ep.name, ep.endpoint, .reachable, none⟩, [])
    else
      (⟨ep.name, ep.endpoint, .unreachable, some (.httpStatus s)⟩,
       [.endpointUnreachable ep.name])
  | .noResponse =>
    (⟨ep.name, ep.endpoint, .unreachable, some .connectionFailed⟩,
     [.endpointUnreachable ep.name])
  | .threw msg =>
    (⟨ep.name, ep.endpoint, .error, some (.message msg)⟩,
     [.endpointProbeFailed ep.name])

/-- The endpoints loop, probing each declared endpoint in order (`probe i` is
the outcome of the probe of the i-th endpoint). -/
def runEndpointsCheck (probe : ℕ → ProbeOutcome) :
    List AgentEndpoint → ℕ → List EndpointStatusEntry × List Issue
  | [], _ => ([], [])
  | ep :: rest, i =>
    let entry := probeEndpointEntry ep (probe i)
    let r := runEndpointsCheck probe rest (i + 1)
    (entry.1 :: r.1, entry.2 ++ r.2)

/-- The effective wallet: a truthy `agentWallet` metadata value overrides the
owner; a thrown metadata read or a falsy value keeps the owner. -/
def effectiveWallet (owner : Str) (walletMeta : Option Str) : Str :=
  match walletMeta with
  | some w => if w.isEmpty then owner else w
  | none => owner

def isHexChar (c : Char) : Bool :=
  c.isDigit || decide ('a' ≤ c ∧ c ≤ 'f') || decide ('A' ≤ c ∧ c ≤ 'F')

/-- The `/^0x[a-fA-F0-9]{40}$/` wallet pattern. -/
def isValidEthAddress : Str → Bool
  | '0' :: 'x' :: rest => rest.length == 40 && rest.all isHexChar
  | _ => false

/-- The wallet check: resolve the effective wallet, test the address pattern,
compare case-insensitively with the owner, and append the format issue. -/
def runWalletCheck (owner : Str) (walletMeta : Option Str) :
    WalletStatus × List Issue :=
  let wallet := effectiveWallet owner walletMeta
  let valid := isValidEthAddress wallet
  (⟨wallet, valid, lowerStr wallet == lowerStr owner⟩,
   if valid then [] else [.invalidWalletAddressFormat])

/-- Classification of one self-declared trust method string. -/
def classifyTrustMethod (fb : FeedbackRead) (trustType : Str) :
    AttestationEntry :=
  if trustType = "reputation".data then
    let r := readFeedbackSafe fb
    let count := r.scores.length
    let average : ℚ := if 0 < count then r.scores.sum / count else 0
    ⟨"reputation".data,
     if 0 < count then "active".data else "no-feedback".data,
     some (match r.warning with
       | some w => .unavailableWarning w
       | none => .summary count (round average))⟩
  else if trustType = "tee-attestation".data then
    ⟨"tee-attestation".data, "declared".data, some .teeNotImplemented⟩
  else if trustType = "crypto-economic".data then
    ⟨"crypto-economic".data, "declared".data, some .cryptoEconomicNotImplemented⟩
  else ⟨trustType, "unknown".data, none⟩

def reachableCount (entries : List EndpointStatusEntry) : ℕ :=
  (entries.filter fun e => decide (e.status = .reachable)).length

/-- The verdict chain run after all requested checks finish. -/
def computeOverallVerdict (entries : List EndpointStatusEntry)
    (walletValid : Bool) (issues : List Issue) : OverallVerdict :=
  if issues.length = 0 then .validated
  else if reachableCount entries = entries.length ∧ walletValid = true then
    .validatedWithWarnings
  else if 0 < reachableCount entries ∨ walletValid = true then .mixed
  else .failed

/-- The whole validate pipeline on a resolved registration file: each
requested check contributes its entries and issues (an unrequested check
leaves its slice of the initial report untouched), then the verdict is
computed. -/
def buildValidationReport (checks : List CheckKind) (rf : RegistrationFile)
    (probe : ℕ → ProbeOutcome) (owner : Str) (walletMeta : Option Str)
    (fb : FeedbackRead) : ValidationReport :=
  let ep :=
    if CheckKind.endpoints ∈ checks then
      match rf.endpoints with
      | some eps => runEndpointsCheck probe eps 0
      | none => ([], [])
    else ([], [])
  let w :=
    if CheckKind.wallet ∈ checks then runWalletCheck owner walletMeta
    else (initialWalletStatus, [])
  let atts :=
    if CheckKind.attestations ∈ checks then
      match rf.supportedTrust with
      | some ts => ts.map (classifyTrustMethod fb)
      | none => []
    else []
  let issues := ep.2 ++ w.2
  ⟨ep.1, w.1, atts, computeOverallVerdict ep.1 w.1.valid issues, issues⟩

/-! ## Concrete instances used by the witness theorems -/

def ctJson : Str := "application/json".data

def exBodyTasksGet : Json := .obj [("method".data, .str "tasks/get".data)]

def exParseTasksGet : Str → Option Json := fun _ => some exBodyTasksGet

def exBodySend : Json := .obj [("method".data, .str "message/send".data)]

def exParseSend : Str → Option Json := fun _ => some exBodySend

def noParse : Str → Option Json := fun _ => none

def noFetch : Str → Option FetchResp := fun _ => none

def exDoc : Json := .obj [("name".data, .str "a".data)]

def exDecodeOk : Str → Option Json := fun _ => some exDoc

def exFetchAB : Str → Option FetchResp := fun s =>
  if s = "a".data then some ⟨404, none⟩ else some ⟨200, some exDoc⟩

def cxUri : Str := "data:application/json;base64,ab".data

def badId : Str := "12a".data

def badIdFields : List (Str × Json) := [("agentId".data, Json.str badId)]

def ownerA : Str := '0' :: 'x' :: List.replicate 40 'a'

def exRf : RegistrationFile := ⟨"n".data, "d".data, none, none, none, none, none⟩

/-! ## Theorems -/

/-- C6: for a non-empty POST /a2a body, a content type that is not
`application/json`, not a `+json` subtype and not `text/plain` (for example
`text/csv`) is answered with the JSON-RPC error code -32600 regardless of the
payload; an accepted content type whose body text is not valid JSON is
answered with error code -32700. -/
theorem a2a_malformed_body_errors (bypass : Bool) (contentType rawBody : Str)
    (jsonParse : Str → Option Json) :
    ((trimChars rawBody).isEmpty = false → acceptsAsJson contentType = false →
      a2aMiddleware bypass contentType rawBody jsonParse = .respond (-32600))
    ∧ ((trimChars rawBody).isEmpty = false → acceptsAsJson contentType = true →
      jsonParse rawBody = none →
      a2aMiddleware bypass contentType rawBody jsonParse = .respond (-32700))
    ∧ acceptsAsJson "text/csv".data = false
    ∧ acceptsAsJson "application/json".data = true
    ∧ acceptsAsJson "text/plain".data = true
    ∧ acceptsAsJson "application/vnd.api+json".data = true := by
  refine ⟨?_, ?_, by decide, by decide, by decide, by decide⟩
  · intro hraw hct
    simp [a2aMiddleware, hraw, hct]
  · intro hraw hct hparse
    simp [a2aMiddleware, hraw, hct, hparse]

/-- Witness for C6 at concrete inputs: a `text/csv` body is rejected with
-32600 and an `application/json` body that fails to parse with -32700. -/
theorem a2a_malformed_body_errors_witness :
    a2aMiddleware false "text/csv".data "a".data noParse = .respond (-32600)
    ∧ a2aMiddleware false ctJson "a".data noParse = .respond (-32700) := by
  constructor
  · exact (a2a_malformed_body_errors false "text/csv".data "a".data noParse).1
      (by decide) (by decide)
  · exact (a2a_malformed_body_errors false ctJson "a".data noParse).2.1
      (by decide) (by decide) rfl

/-- C1: a POST /a2a body whose string `method` lies outside the paid set
never invokes the payment-verification middleware even with no bypass flag
and no payment proof, while a body with method `message/send` or
`message/stream` and no valid payment proof (bypass unset) is answered with
HTTP status 402. -/
theorem a2a_payment_gating (proofPresent : Bool) (contentType rawBody : Str)
    (jsonParse : Str → Option Json) (innerStatus : ℕ) (body : Json) (m : Str) :
    (jsonParse rawBody = some body → jsonStringMethod body = some m →
      m ∉ PAID_A2A_METHODS →
      (a2aRequest false proofPresent contentType rawBody jsonParse
        innerStatus).paymentChecked = false)
    ∧ (jsonParse rawBody = some body → jsonStringMethod body = some m →
      m ∈ PAID_A2A_METHODS → (trimChars rawBody).isEmpty = false →
      acceptsAsJson contentType = true →
      (a2aRequest false false contentType rawBody jsonParse
        innerStatus).httpStatus = 402) := by
  constructor
  · intro hparse hm hnot
    unfold a2aRequest a2aMiddleware
    by_cases h1 : (trimChars rawBody).isEmpty
    · simp [h1]
    · by_cases h2 : acceptsAsJson contentType = true
      · simp [h1, h2, hparse, hm, hnot]
      · rw [Bool.not_eq_true] at h2
        simp [h1, h2]
  · intro hparse hm hin h1 h2
    unfold a2aRequest a2aMiddleware
    simp [h1, h2, hparse, hm, hin, x402Status]

/-- Witness for C1 at concrete inputs: a `tasks/get` body never reaches the
payment capability, and an unpaid `message/send` body receives 402. -/
theorem a2a_payment_gating_witness :
    (a2aRequest false false ctJson "x".data exParseTasksGet
      200).paymentChecked = false
    ∧ (a2aRequest false false ctJson "x".data exParseSend
      200).httpStatus = 402 := by
  constructor
  · exact (a2a_payment_gating false ctJson "x".data exParseTasksGet 200
      exBodyTasksGet "tasks/get".data).1 rfl rfl (by decide)
  · exact (a2a_payment_gating false ctJson "x".data exParseSend 200
      exBodySend "message/send".data).2 rfl rfl (by decide) (by decide) (by decide)

/-- C7: an agent-id string that does not match `^\d+$` is answered with HTTP
400 carrying structured field detail, and the registry client is never
invoked — both on the REST path parameter and on the `agentId` field of an
invoke body. -/
theorem invalid_agent_id_rejected (s : Str) (innerStatus : ℕ)
    (fields : List (Str × Json)) (hs : matchesAgentIdPattern s = false) :
    profileRoute s innerStatus = ⟨400, true, false⟩
    ∧ (jlookup "agentId".data fields = some (.str s) →
      invokeRoute (.obj fields) innerStatus = ⟨400, true, false⟩) := by
  constructor
  · simp [profileRoute, parseAgentIdParam, hs]
  · intro hf
    simp [invokeRoute, hf, agentIdSchemaJson, parseAgentIdParam, hs]

/-- Witness for C7 at the concrete invalid id "12a". -/
theorem invalid_agent_id_rejected_witness :
    profileRoute badId 200 = ⟨400, true, false⟩
    ∧ invokeRoute (.obj badIdFields) 200 = ⟨400, true, false⟩ := by
  have h := invalid_agent_id_rejected badId 200 badIdFields (by decide)
  exact ⟨h.1, h.2 rfl⟩

/-- Every URL the candidate loop attempts comes from the candidate list. -/
theorem tryFetchUrls_log_subset (f : Str → Option FetchResp) :
    ∀ (urls : List Str) (lastStatus : ℕ),
      (tryFetchUrls f urls lastStatus).2 ⊆ urls := by
  intro urls
  induction urls with
  | nil => intro lastStatus; simp [tryFetchUrls]
  | cons u rest ih =>
    intro lastStatus
    unfold tryFetchUrls
    cases hf : f u with
    | none =>
      simpa using List.cons_subset_cons u (ih 502)
    | some r =>
      by_cases hok : respOk r
      · cases hb : r.body with
        | some doc => simp [hok, hb]
        | none => simp [hok, hb]
      · rw [Bool.not_eq_true] at hok
        simpa [hok] using List.cons_subset_cons u (ih r.status)

/-- The attempt log never repeats a candidate when the candidate list has no
duplicates. -/
theorem tryFetchUrls_log_nodup (f : Str → Option FetchResp) :
    ∀ (urls : List Str) (lastStatus : ℕ), urls.Nodup →
      ((tryFetchUrls f urls lastStatus).2).Nodup := by
  intro urls
  induction urls with
  | nil => intro lastStatus _; simp [tryFetchUrls]
  | cons u rest ih =>
    intro lastStatus h
    rcases List.nodup_cons.mp h with ⟨hu, hrest⟩
    unfold tryFetchUrls
    cases hf : f u with
    | none =>
      refine List.nodup_cons.mpr ⟨?_, ih 502 hrest⟩
      exact fun hmem => hu (tryFetchUrls_log_subset f rest 502 hmem)
    | some r =>
      by_cases hok : respOk r
      · cases hb : r.body with
        | some doc => simp [hok, hb]
        | none => simp [hok, hb]
      · rw [Bool.not_eq_true] at hok
        simp only [hok]
        refine List.nodup_cons.mpr ⟨?_, ih r.status hrest⟩
        exact fun hmem => hu (tryFetchUrls_log_subset f rest r.status hmem)

/-- When every candidate fails, the loop fails with the status recorded for
the last candidate. -/
theorem tryFetchUrls_all_fail (f : Str → Option FetchResp) :
    ∀ (urls : List Str) (lastStatus : ℕ) (h : urls ≠ []),
      (∀ v ∈ urls, candidateFails f v) →
      (tryFetchUrls f urls lastStatus).1 =
        .error (.httpStatus (recordedStatus f (urls.getLast h))) := by
  intro urls
  induction urls with
  | nil => intro lastStatus h; exact absurd rfl h
  | cons u rest ih =>
    intro lastStatus h hall
    have hu := hall u (List.mem_cons_self u rest)
    cases rest with
    | nil =>
      rcases hu with hnone | ⟨r, hr, hok⟩
      · simp [tryFetchUrls, hnone, recordedStatus, List.getLast]
      · simp [tryFetchUrls, hr, hok, recordedStatus, List.getLast]
    | cons v rest' =>
      have hne : (v :: rest') ≠ [] := by simp
      have hstep := ih lastStatus
      rcases hu with hnone | ⟨r, hr, hok⟩
      · have : (tryFetchUrls f (u :: v :: rest') lastStatus).1 =
            (tryFetchUrls f (v :: rest') 502).1 := by
          simp [tryFetchUrls, hnone]
        rw [this, ih 502 hne (fun x hx => hall x (List.mem_cons_of_mem u hx))]
        rw [List.getLast_cons hne]
      · have : (tryFetchUrls f (u :: v :: rest') lastStatus).1 =
            (tryFetchUrls f (v :: rest') r.status).1 := by
          simp [tryFetchUrls, hr, hok]
        rw [this, ih r.status hne (fun x hx => hall x (List.mem_cons_of_mem u hx))]
        rw [List.getLast_cons hne]

/-- Appending the same suffix to lists of different lengths gives different
lists. -/
theorem append_ne_of_length_ne {a b : Str} (c : Str)
    (hab : a.length ≠ b.length) : a ++ c ≠ b ++ c := by
  intro heq
  apply hab
  have h := congrArg List.length heq
  simp only [List.length_append] at h
  omega

/-- C3: an `ipfs://` token URI expands to three distinct gateway candidates
carrying the same CID; a transport failure records 502 and continues, any
non-success status (404 included) is recorded and the loop continues, a first
2xx success short-circuits with its parsed document and attempts nothing
further, no candidate is attempted twice, and when every candidate fails the
operation fails with the last recorded status, which `endpointError` maps to
404 exactly when it was 404 and to a 500 upstream failure otherwise. -/
theorem registration_fallback_policy (f : Str → Option FetchResp)
    (uri u : Str) (rest : List Str) (lastStatus : ℕ) :
    (startsWithChars IPFS_SCHEME uri = true →
      fetchUrlsFor uri = [GATEWAY_IPFS_MAIN ++ uri.drop 7,
        GATEWAY_CLOUDFLARE ++ uri.drop 7, GATEWAY_DWEB ++ uri.drop 7]
      ∧ (fetchUrlsFor uri).length = 3 ∧ (fetchUrlsFor uri).Nodup)
    ∧ (f u = none →
      tryFetchUrls f (u :: rest) lastStatus =
        ((tryFetchUrls f rest 502).1, u :: (tryFetchUrls f rest 502).2))
    ∧ (∀ r, f u = some r → respOk r = false →
      tryFetchUrls f (u :: rest) lastStatus =
        ((tryFetchUrls f rest r.status).1,
          u :: (tryFetchUrls f rest r.status).2))
    ∧ (∀ r doc, f u = some r → respOk r = true → r.body = some doc →
      tryFetchUrls f (u :: rest) lastStatus = (.ok doc, [u]))
    ∧ (∀ urls : List Str, urls.Nodup →
      ((tryFetchUrls f urls lastStatus).2).Nodup)
    ∧ (∀ (urls : List Str) (h : urls ≠ []), (∀ v ∈ urls, candidateFails f v) →
      (tryFetchUrls f urls lastStatus).1 =
        .error (.httpStatus (recordedStatus f (urls.getLast h))))
    ∧ endpointErrorStatus (.httpStatus 404) = 404
    ∧ (∀ s, s ≠ 404 → endpointErrorStatus (.httpStatus s) = 500) := by
  refine ⟨?_, ?_, ?_, ?_, ?_, ?_, by decide, ?_⟩
  · intro hi
    have hurls : fetchUrlsFor uri = [GATEWAY_IPFS_MAIN ++ uri.drop 7,
        GATEWAY_CLOUDFLARE ++ uri.drop 7, GATEWAY_DWEB ++ uri.drop 7] := by
      simp [fetchUrlsFor, hi]
    refine ⟨hurls, by rw [hurls]; rfl, ?_⟩
    rw [hurls]
    refine List.nodup_cons.mpr ⟨?_, List.nodup_cons.mpr ⟨?_, List.nodup_singleton _⟩⟩
    · intro hmem
      rcases List.mem_cons.mp hmem with hcase | hcase
      · exact append_ne_of_length_ne _ (by decide) hcase
      · have heq := List.mem_singleton.mp hcase
        exact append_ne_of_length_ne _ (by decide) heq
    · intro hmem
      have heq := List.mem_singleton.mp hmem
      exact append_ne_of_length_ne _ (by decide) heq
  · intro hnone
    simp [tryFetchUrls, hnone]
  · intro r hr hok
    simp [tryFetchUrls, hr, hok]
  · intro r doc hr hok hb
    simp [tryFetchUrls, hr, hok, hb]
  · exact fun urls h => tryFetchUrls_log_nodup f urls lastStatus h
  · exact fun urls h hall => tryFetchUrls_all_fail f urls lastStatus h hall
  · intro s hs
    simp [endpointErrorStatus, hs]

/-- Witness for C3: with gateway "a" answering 404 and gateway "b" a valid
document, resolution returns b's document having attempted exactly a then b,
and an `ipfs://` URI yields three candidates. -/
theorem registration_fallback_policy_witness :
    tryFetchUrls exFetchAB ["a".data, "b".data, "c".data] 500 =
      (.ok exDoc, ["a".data, "b".data])
    ∧ (fetchUrlsFor "ipfs://q".data).length = 3 := by
  have h1 := registration_fallback_policy exFetchAB "ipfs://q".data "a".data
    ["b".data, "c".data] 500
  have h2 := registration_fallback_policy exFetchAB "ipfs://q".data "b".data
    ["c".data] 404
  constructor
  · have step := h1.2.2.1 ⟨404, none⟩ rfl (by decide)
    have sc := h2.2.2.2.1 ⟨200, some exDoc⟩ exDoc rfl (by decide) rfl
    rw [step, sc]
  · exact (h1.1 (by decide)).2.1

/-- C4 (amended): a data-URI token whose payload decodes and parses to a
(truthy) JSON document resolves to that document with no network attempt;
when decoding or parsing fails, the URI falls through to the candidate loop
as a literal fetch candidate, so the failure is classified by the fetch
outcomes there rather than as a not-found. -/
theorem data_uri_resolution (decodeParse : Str → Option Json)
    (f : Str → Option FetchResp) (uri payload : Str) (doc : Json) :
    (dataUriPayload uri = some payload → decodeParse payload = some doc →
      jsTruthy doc = true →
      fetchRegistrationFile decodeParse f uri = (.ok doc, []))
    ∧ (dataUriPayload uri = some payload → decodeParse payload = none →
      fetchRegistrationFile decodeParse f uri =
        tryFetchUrls f (fetchUrlsFor uri) 500) := by
  constructor
  · intro hp hd ht
    simp [fetchRegistrationFile, parseDataUri, hp, hd, ht]
  · intro hp hd
    simp [fetchRegistrationFile, parseDataUri, hp, hd]

/-- Witness for C4's amended statement at concrete inputs. -/
theorem data_uri_resolution_witness :
    fetchRegistrationFile exDecodeOk noFetch cxUri = (.ok exDoc, [])
    ∧ fetchRegistrationFile noParse noFetch cxUri =
        tryFetchUrls noFetch (fetchUrlsFor cxUri) 500 := by
  have h1 := data_uri_resolution exDecodeOk noFetch cxUri "ab".data exDoc
  have h2 := data_uri_resolution noParse noFetch cxUri "ab".data exDoc
  exact ⟨h1.1 (by decide) rfl (by decide), h2.2 (by decide) rfl⟩

/-- Counterexample to C4 as stated: for this concrete data URI the payload
fails to decode/parse, yet resolution does not fail in the not-found (404)
category — the URI becomes a literal fetch candidate, the transport failure
records 502, and `endpointError` maps the outcome to a 500 upstream-failure
response, not a 404. -/
theorem data_uri_parse_failure_counterexample :
    dataUriPayload cxUri = some "ab".data
    ∧ noParse "ab".data = none
    ∧ (fetchRegistrationFile noParse noFetch cxUri).1 =
        .error (.httpStatus 502)
    ∧ (fetchRegistrationFile noParse noFetch cxUri).2 = [cxUri]
    ∧ endpointErrorStatus (.httpStatus 502) = 500
    ∧ (500 : ℕ) ≠ 404 := by
  exact ⟨by decide, rfl, rfl, by decide, by decide, by decide⟩

/-- Rounding is monotone. -/
theorem round_le_round_of_le {x y : ℝ} (h : x ≤ y) : round x ≤ round y := by
  rw [round_eq, round_eq]
  exact Int.floor_mono (by linarith)

/-- Clamping to the integer interval [0,100] commutes with rounding: the
source's `min(100, max(0, round(x)))` equals the spec's `round(clamp(x))`. -/
theorem clamp_round_comm (x : ℝ) :
    min 100 (max 0 (round x)) = round (min (100 : ℝ) (max 0 x)) := by
  rcases le_total x 0 with hx | hx
  · have h2 : round x ≤ 0 := by simpa using round_le_round_of_le hx
    rw [max_eq_left hx, min_eq_right (by norm_num : (0:ℝ) ≤ 100), round_zero,
      max_eq_left h2]
    exact min_eq_right (by norm_num)
  · rcases le_total x 100 with hx2 | hx2
    · have h3 : (0:ℤ) ≤ round x := by simpa using round_le_round_of_le hx
      have h4 : round x ≤ 100 := by simpa using round_le_round_of_le hx2
      rw [max_eq_right hx, min_eq_right hx2, max_eq_right h3, min_eq_right h4]
    · have h0 : (0:ℝ) ≤ x := by linarith
      have h4 : (100:ℤ) ≤ round x := by simpa using round_le_round_of_le hx2
      have h3 : (0:ℤ) ≤ round x := by omega
      rw [max_eq_right h0, min_eq_left hx2, max_eq_right h3, min_eq_left h4]
      simp

theorem consistencyScore_eq_spec (scores : List ℚ) :
    consistencyScore scores = specConsistencyScore scores := by
  unfold consistencyScore specConsistencyScore computeVariance populationStddev
  rcases Nat.eq_zero_or_pos scores.length with h | h
  · simp [h]
  · rw [if_pos h, if_pos h, if_neg (Nat.pos_iff_ne_zero.mp h)]

theorem effectiveBaseScore_eq_spec (scores : List ℚ) :
    effectiveBaseScore scores = specEffectiveBaseScore scores := by
  unfold effectiveBaseScore specEffectiveBaseScore avgScore
  rcases Nat.eq_zero_or_pos scores.length with h | h
  · simp [h]
  · rw [if_pos h, if_pos h, if_pos h]

theorem rawTrustScore_eq_spec (rf : RegistrationFile) (scores : List ℚ) :
    rawTrustScore rf scores =
      specEffectiveBaseScore scores + (specIdentityMaturity rf : ℝ) * 0.3 +
        specReputationConfidence scores * 0.2 := by
  unfold rawTrustScore reputationConfidence specReputationConfidence
  rw [consistencyScore_eq_spec, effectiveBaseScore_eq_spec]
  rfl

/-- C2: the score operation computes exactly the spec's formula — the
source-side components (`identityMaturity`, `volumeScore`,
`consistencyScore` over the population standard deviation,
`reputationConfidence`, `effectiveBaseScore`) composed as
`round(clamp(effectiveBaseScore + identityMaturity*0.3 +
reputationConfidence*0.2, 0, 100))` — so the trust score is always in
[0,100], and an empty feedback list gives `effectiveBaseScore = 50` and
`reputationConfidence = 0`. -/
theorem trust_score_formula (rf : RegistrationFile) (scores : List ℚ) :
    trustScore rf scores = specTrustScore rf scores
    ∧ 0 ≤ trustScore rf scores ∧ trustScore rf scores ≤ 100
    ∧ effectiveBaseScore ([] : List ℚ) = 50
    ∧ reputationConfidence ([] : List ℚ) = 0 := by
  refine ⟨?_, ?_, ?_, ?_, ?_⟩
  · unfold trustScore specTrustScore
    rw [rawTrustScore_eq_spec]
    exact clamp_round_comm _
  · unfold trustScore
    exact le_min (by norm_num) (le_max_left 0 _)
  · unfold trustScore
    exact min_le_left _ _
  · unfold effectiveBaseScore
    simp
  · unfold reputationConfidence volumeScore consistencyScore
    norm_num

/-- C5: the verdict bands are inclusive lower-bound thresholds on the
computed trust score — 80 gives highly-trusted, 60–79 trusted, 40–59 neutral,
20–39 low-trust, at most 19 untrusted — with the stated boundary values, and
the score operation's verdict is exactly this function of its trust score. -/
theorem verdict_thresholds (s : ℤ) (rf : RegistrationFile)
    (fb : FeedbackRead) :
    (verdictOf s = .highlyTrusted ↔ 80 ≤ s)
    ∧ (verdictOf s = .trusted ↔ 60 ≤ s ∧ s ≤ 79)
    ∧ (verdictOf s = .neutral ↔ 40 ≤ s ∧ s ≤ 59)
    ∧ (verdictOf s = .lowTrust ↔ 20 ≤ s ∧ s ≤ 39)
    ∧ (verdictOf s = .untrusted ↔ s ≤ 19)
    ∧ verdictOf 80 = .highlyTrusted ∧ verdictOf 79 = .trusted
    ∧ verdictOf 60 = .trusted ∧ verdictOf 59 = .neutral
    ∧ verdictOf 40 = .neutral ∧ verdictOf 39 = .lowTrust
    ∧ verdictOf 20 = .lowTrust ∧ verdictOf 19 = .untrusted
    ∧ (scoreInvoke rf fb).verdict = verdictOf ((scoreInvoke rf fb).trustScore)
    := by
  refine ⟨?_, ?_, ?_, ?_, ?_, by decide, by decide, by decide, by decide,
    by decide, by decide, by decide, by decide, rfl⟩
  all_goals unfold verdictOf
  all_goals split_ifs
  all_goals constructor
  all_goals intro hh
  all_goals first
    | rfl
    | omega
    | (exact absurd hh (by decide))

/-- The verdict chain characterised branch by branch. -/
theorem computeOverallVerdict_cases (entries : List EndpointStatusEntry)
    (wv : Bool) (issues : List Issue) :
    (computeOverallVerdict entries wv issues = .validated ↔ issues = [])
    ∧ (computeOverallVerdict entries wv issues = .validatedWithWarnings ↔
        (issues ≠ [] ∧ reachableCount entries = entries.length ∧ wv = true))
    ∧ (computeOverallVerdict entries wv issues = .mixed ↔
        (issues ≠ [] ∧ ¬(reachableCount entries = entries.length ∧ wv = true)
          ∧ (0 < reachableCount entries ∨ wv = true)))
    ∧ (computeOverallVerdict entries wv issues = .failed ↔
        (issues ≠ [] ∧ ¬(reachableCount entries = entries.length ∧ wv = true)
          ∧ ¬(0 < reachableCount entries ∨ wv = true))) := by
  unfold computeOverallVerdict
  split_ifs with h1 h2 h3 <;>
    simp_all [List.length_eq_zero]

/-- The verdict chain never leaves `pending` in place. -/
theorem computeOverallVerdict_terminal (entries : List EndpointStatusEntry)
    (wv : Bool) (issues : List Issue) :
    computeOverallVerdict entries wv issues ≠ .pending
    ∧ (computeOverallVerdict entries wv issues = .validated
      ∨ computeOverallVerdict entries wv issues = .validatedWithWarnings
      ∨ computeOverallVerdict entries wv issues = .mixed
      ∨ computeOverallVerdict entries wv issues = .failed) := by
  unfold computeOverallVerdict
  split_ifs <;> simp

/-- C9: the report's verdict starts as `pending` while checks run, but every
response of the validate operation carries a terminal verdict — `pending` is
never returned, whatever the requested check set and check outcomes. -/
theorem validation_verdict_terminal (checks : List CheckKind)
    (rf : RegistrationFile) (probe : ℕ → ProbeOutcome) (owner : Str)
    (walletMeta : Option Str) (fb : FeedbackRead) :
    initialReport.overallVerdict = .pending
    ∧ (buildValidationReport checks rf probe owner walletMeta
        fb).overallVerdict ≠ .pending
    ∧ ((buildValidationReport checks rf probe owner walletMeta
          fb).overallVerdict = .validated
      ∨ (buildValidationReport checks rf probe owner walletMeta
          fb).overallVerdict = .validatedWithWarnings
      ∨ (buildValidationReport checks rf probe owner walletMeta
          fb).overallVerdict = .mixed
      ∨ (buildValidationReport checks rf probe owner walletMeta
          fb).overallVerdict = .failed) := by
  exact ⟨rfl, (computeOverallVerdict_terminal _ _ _).1,
    (computeOverallVerdict_terminal _ _ _).2⟩

/-- C8: after all requested checks finish, the verdict ladder is — no issues:
validated; issues present but every probed endpoint reachable and the wallet
valid: validated-with-warnings; else at least one reachable endpoint or a
valid wallet: partial (`mixed`); else failed. Checks outside the requested
set contribute no entries (their report slices keep the initial values) and
the verdict does not depend on their inputs. -/
theorem validation_verdict_ladder (checks : List CheckKind)
    (rf : RegistrationFile) (probe probe' : ℕ → ProbeOutcome)
    (owner owner' : Str) (walletMeta walletMeta' : Option Str)
    (fb fb' : FeedbackRead)
    (hep : CheckKind.endpoints ∈ checks → probe' = probe)
    (hw : CheckKind.wallet ∈ checks →
      walletMeta' = walletMeta ∧ owner' = owner) :
    ((buildValidationReport checks rf probe owner walletMeta
        fb).overallVerdict = .validated ↔
      (buildValidationReport checks rf probe owner walletMeta fb).issues = [])
    ∧ ((buildValidationReport checks rf probe owner walletMeta
        fb).overallVerdict = .validatedWithWarnings ↔
      ((buildValidationReport checks rf probe owner walletMeta
          fb).issues ≠ []
        ∧ reachableCount (buildValidationReport checks rf probe owner
            walletMeta fb).endpointStatus =
          (buildValidationReport checks rf probe owner walletMeta
            fb).endpointStatus.length
        ∧ (buildValidationReport checks rf probe owner walletMeta
            fb).walletStatus.valid = true))
    ∧ ((buildValidationReport checks rf probe owner walletMeta
        fb).overallVerdict = .mixed ↔
      ((buildValidationReport checks rf probe owner walletMeta
          fb).issues ≠ []
        ∧ ¬(reachableCount (buildValidationReport checks rf probe owner
              walletMeta fb).endpointStatus =
            (buildValidationReport checks rf probe owner walletMeta
              fb).endpointStatus.length
          ∧ (buildValidationReport checks rf probe owner walletMeta
              fb).walletStatus.valid = true)
        ∧ (0 < reachableCount (buildValidationReport checks rf probe owner
              walletMeta fb).endpointStatus
          ∨ (buildValidationReport checks rf probe owner walletMeta
              fb).walletStatus.valid = true)))
    ∧ ((buildValidationReport checks rf probe owner walletMeta
        fb).overallVerdict = .failed ↔
      ((buildValidationReport checks rf probe owner walletMeta
          fb).issues ≠ []
        ∧ ¬(reachableCount (buildValidationReport checks rf probe owner
              walletMeta fb).endpointStatus =
            (buildValidationReport checks rf probe owner walletMeta
              fb).endpointStatus.length
          ∧ (buildValidationReport checks rf probe owner walletMeta
              fb).walletStatus.valid = true)
        ∧ ¬(0 < reachableCount (buildValidationReport checks rf probe owner
              walletMeta fb).endpointStatus
          ∨ (buildValidationReport checks rf probe owner walletMeta
              fb).walletStatus.valid = true)))
    ∧ (CheckKind.endpoints ∉ checks →
      (buildValidationReport checks rf probe owner walletMeta
        fb).endpointStatus = [])
    ∧ (CheckKind.wallet ∉ checks →
      (buildValidationReport checks rf probe owner walletMeta
        fb).walletStatus = initialWalletStatus)
    ∧ (CheckKind.attestations ∉ checks →
      (buildValidationReport checks rf probe owner walletMeta
        fb).attestations = [])
    ∧ (buildValidationReport checks rf probe' owner' walletMeta'
        fb').overallVerdict =
      (buildValidationReport checks rf probe owner walletMeta
        fb).overallVerdict := by
  have hmain := computeOverallVerdict_cases
    ((buildValidationReport checks rf probe owner walletMeta
      fb).endpointStatus)
    ((buildValidationReport checks rf probe owner walletMeta
      fb).walletStatus.valid)
    ((buildValidationReport checks rf probe owner walletMeta fb).issues)
  refine ⟨hmain.1, hmain.2.1, hmain.2.2.1, hmain.2.2.2, ?_, ?_, ?_, ?_⟩
  · intro h
    simp [buildValidationReport, h]
  · intro h
    simp [buildValidationReport, h]
  · intro h
    simp [buildValidationReport, h]
  · have hE : (if CheckKind.endpoints ∈ checks then
        match rf.endpoints with
        | some eps => runEndpointsCheck probe' eps 0
        | none => ([], [])
      else ([], [])) =
      (if CheckKind.endpoints ∈ checks then
        match rf.endpoints with
        | some eps => runEndpointsCheck probe eps 0
        | none => ([], [])
      else ([], [])) := by
      by_cases he : CheckKind.endpoints ∈ checks
      · rw [hep he]
      · simp [he]
    have hW : (if CheckKind.wallet ∈ checks then
        runWalletCheck owner' walletMeta'
      else (initialWalletStatus, [])) =
      (if CheckKind.wallet ∈ checks then runWalletCheck owner walletMeta
      else (initialWalletStatus, [])) := by
      by_cases hwm : CheckKind.wallet ∈ checks
      · rcases hw hwm with ⟨hw1, hw2⟩
        rw [hw1, hw2]
      · simp [hwm]
    simp only [buildValidationReport]
    rw [hE, hW]

/-- Witness for C8 at a concrete wallet-only check set whose owner address is
a valid lowercase address: no issues, so the verdict is validated, and no
endpoint entries appear. -/
theorem validation_verdict_ladder_witness :
    (buildValidationReport [CheckKind.wallet] exRf (fun _ => .noResponse)
      ownerA none (.ok [] [])).overallVerdict = .validated
    ∧ (buildValidationReport [CheckKind.wallet] exRf (fun _ => .noResponse)
      ownerA none (.ok [] [])).endpointStatus = [] := by
  have h := validation_verdict_ladder [CheckKind.wallet] exRf
    (fun _ => .noResponse) (fun _ => .noResponse) ownerA ownerA none none
    (.ok [] []) (.ok [] []) (fun _ => rfl) (fun _ => ⟨rfl, rfl⟩)
  exact ⟨h.1.mpr (by decide), h.2.2.2.2.1 (by decide)⟩

/-- C10: a thrown feedback read is absorbed by `readFeedbackSafe`: the score
operation still responds 200 with feedback count 0, average 0 and the
warning set, and its trust score is computed on the zero-feedback path
(`effectiveBaseScore = 50`) — identical to a genuinely zero-feedback agent's
output except for the warning field; the validate operation's reputation
attestation likewise reports the warning instead of aborting. -/
theorem feedback_read_failure_absorbed (rf : RegistrationFile) (m : Str) :
    scoreInvoke rf (.threw m) =
      { scoreInvoke rf (.ok [] []) with warning := some m }
    ∧ (scoreInvoke rf (.threw m)).httpStatus = 200
    ∧ (scoreInvoke rf (.threw m)).feedbackCount = 0
    ∧ (scoreInvoke rf (.threw m)).averageScore = 0
    ∧ (scoreInvoke rf (.threw m)).warning = some m
    ∧ effectiveBaseScore (readFeedbackSafe (.threw m)).scores = 50
    ∧ classifyTrustMethod (.threw m) "reputation".data =
        ⟨"reputation".data, "no-feedback".data,
          some (.unavailableWarning m)⟩ := by
  refine ⟨?_, rfl, rfl, ?_, rfl, ?_, ?_⟩
  · rfl
  · show ((round (avgScore (readFeedbackSafe (.threw m)).scores * 10) : ℤ) :
      ℝ) / 10 = 0
    norm_num [readFeedbackSafe, avgScore]
  · norm_num [readFeedbackSafe, effectiveBaseScore]
  · rfl

end ATG
